import Mathlib

/-!
Shallow embedding of the multi-provider inference adapter layer of the
Aethyl.AI browser chat client, together with proofs about the claims of
its specification.

The repository carries several generations of the same modules:
`src/unnamed/part_006` (header comment `// src/services/aiService.ts`) is
the refined multi-provider router; `src/services/aiService.ts` is a
Grok-only variant; `src/unnamed/part_007` is an earlier multi-provider
variant; `src/App.tsx` and `src/unnamed/part_001` are two generations of
the caller.  Where variants differ, both are embedded, each definition
named after the variant it is translated from.

JavaScript built-ins used by the source (String.prototype.trim/trimEnd/
startsWith/slice/includes/toLowerCase, JSON.parse, Set) are modelled here
by executable Lean functions with the same semantics on the inputs the
source feeds them.
-/

namespace Aethyl

/-! ### Models of the JavaScript string built-ins -/

/-- Model of the JavaScript whitespace class for `trim`/`trimEnd`
(the source only ever meets spaces, tabs, CR and LF). -/
def isWsChar (c : Char) : Bool :=
  c = ' ' || c = '\t' || c = '\n' || c = '\r'

/-- Model of `String.prototype.trimEnd`. -/
def jsTrimEnd (s : String) : String :=
  ⟨(s.data.reverse.dropWhile isWsChar).reverse⟩

/-- Model of `String.prototype.trim`. -/
def jsTrim (s : String) : String :=
  ⟨((s.data.dropWhile isWsChar).reverse.dropWhile isWsChar).reverse⟩

/-- Model of `String.prototype.startsWith`. -/
def jsStartsWith (s pre : String) : Bool :=
  pre.data.isPrefixOf s.data

/-- Model of `String.prototype.slice(n)` (drop the first `n` characters). -/
def jsSlice (s : String) (n : Nat) : String :=
  ⟨s.data.drop n⟩

/-- Model of `String.prototype.toLowerCase` (ASCII, which is all the
provider labels use). -/
def jsToLower (s : String) : String :=
  ⟨s.data.map Char.toLower⟩

/-- Substring occurrence on character lists, for `String.prototype.includes`. -/
def listContainsSub : List Char → List Char → Bool
  | [], needle => needle.isEmpty
  | h :: t, needle => needle.isPrefixOf (h :: t) || listContainsSub t needle

/-- Model of `String.prototype.includes`. -/
def jsIncludes (s sub : String) : Bool :=
  listContainsSub s.data sub.data

/-! ### Stream Decoder (`sseLines`, identical in `src/services/aiService.ts`
lines 67–91, `src/unnamed/part_006` lines 125–145 and `src/unnamed/part_007`
lines 54–71) -/

/-- Split a buffer at each `'\n'`, returning the complete lines (front)
and the trailing partial line, mirroring the inner
`while ((newlineIndex = buffer.indexOf("\n")) !== -1)` loop. -/
def splitNewlines (cur : List Char) : List Char → List (List Char) × List Char
  | [] => ([], cur.reverse)
  | c :: rest =>
    if c = '\n' then
      let (ls, leftover) := splitNewlines [] rest
      (cur.reverse :: ls, leftover)
    else
      splitNewlines (c :: cur) rest

/-- One `reader.read()` step of `sseLines`: append the decoded chunk to the
buffer, emit every complete line (`trimEnd`ed, as the source yields
`line.trimEnd()`), and keep the trailing partial line buffered. -/
def sseStep (st : List String × String) (chunk : String) : List String × String :=
  let buffer := st.2 ++ chunk
  let (ls, leftover) := splitNewlines [] buffer.data
  (st.1 ++ ls.map (fun l => jsTrimEnd ⟨l⟩), ⟨leftover⟩)

/-- The full `sseLines` generator run over a list of decoded byte chunks:
all lines yielded during the reads, plus the final
`if (buffer.length > 0) yield buffer.trimEnd()` flush.
(The source decodes UTF-8 bytes with `TextDecoder`; chunks are modelled as
the decoded strings, which agrees with any byte partition on ASCII input.) -/
def sseLines (chunks : List String) : List String :=
  let st := chunks.foldl sseStep ([], "")
  if st.2.data.length > 0 then st.1 ++ [jsTrimEnd st.2] else st.1

end Aethyl

/-! ### A model of JSON values and of `JSON.parse`
(used by every SSE adapter on each `data:` payload). -/

inductive Json where
  | null : Json
  | bool (b : Bool) : Json
  | num (n : Int) : Json
  | str (s : String) : Json
  | arr (xs : List Json) : Json
  | obj (fields : List (String × Json)) : Json

/-- Parse a JSON string body (opening quote already consumed).
Handles the escapes the source's payloads can contain. -/
def parseJsonString (acc : List Char) : List Char → Option (String × List Char)
  | [] => none
  | '"' :: rest => some (⟨acc.reverse⟩, rest)
  | '\\' :: e :: rest =>
    match e with
    | '"' => parseJsonString ('"' :: acc) rest
    | '\\' => parseJsonString ('\\' :: acc) rest
    | '/' => parseJsonString ('/' :: acc) rest
    | 'n' => parseJsonString ('\n' :: acc) rest
    | 't' => parseJsonString ('\t' :: acc) rest
    | 'r' => parseJsonString ('\r' :: acc) rest
    | _ => none
  | c :: rest => parseJsonString (c :: acc) rest

/-- Digits to a natural number. -/
def digitsToNat (ds : List Char) : Nat :=
  ds.foldl (fun n c => n * 10 + (c.toNat - '0'.toNat)) 0

mutual

/-- Recursive-descent JSON value parser (fuel-bounded so that it reduces
in the kernel); models `JSON.parse`. -/
def parseJsonValue : Nat → List Char → Option (Json × List Char)
  | 0, _ => none
  | Nat.succ f, s =>
    match s.dropWhile Aethyl.isWsChar with
    | [] => none
    | '"' :: rest =>
      match parseJsonString [] rest with
      | some (str, rest') => some (.str str, rest')
      | none => none
    | '\x7b' :: rest =>
      match rest.dropWhile Aethyl.isWsChar with
      | '\x7d' :: rest' => some (.obj [], rest')
      | _ => match parseJsonMembers f rest with
             | some (fs, rest') => some (.obj fs, rest')
             | none => none
    | '[' :: rest =>
      match rest.dropWhile Aethyl.isWsChar with
      | ']' :: rest' => some (.arr [], rest')
      | _ => match parseJsonElements f rest with
             | some (xs, rest') => some (.arr xs, rest')
             | none => none
    | 't' :: 'r' :: 'u' :: 'e' :: rest => some (.bool true, rest)
    | 'f' :: 'a' :: 'l' :: 's' :: 'e' :: rest => some (.bool false, rest)
    | 'n' :: 'u' :: 'l' :: 'l' :: rest => some (.null, rest)
    | '-' :: rest =>
      let ds := rest.takeWhile Char.isDigit
      if ds.isEmpty then none
      else some (.num (-(digitsToNat ds : Int)), rest.drop ds.length)
    | c :: rest =>
      if c.isDigit then
        let ds := (c :: rest).takeWhile Char.isDigit
        some (.num (digitsToNat ds : Int), (c :: rest).drop ds.length)
      else none

/-- Object members: `"key" : value (, ...)* }`. -/
def parseJsonMembers : Nat → List Char → Option (List (String × Json) × List Char)
  | 0, _ => none
  | Nat.succ f, s =>
    match s.dropWhile Aethyl.isWsChar with
    | '"' :: rest =>
      match parseJsonString [] rest with
      | some (key, rest') =>
        match rest'.dropWhile Aethyl.isWsChar with
        | ':' :: rest'' =>
          match parseJsonValue f rest'' with
          | some (v, rest3) =>
            match rest3.dropWhile Aethyl.isWsChar with
            | ',' :: rest4 =>
              match parseJsonMembers f rest4 with
              | some (fs, rest5) => some ((key, v) :: fs, rest5)
              | none => none
            | '\x7d' :: rest4 => some ([(key, v)], rest4)
            | _ => none
          | none => none
        | _ => none
      | none => none
    | _ => none

/-- Array elements: `value (, value)* ]`. -/
def parseJsonElements : Nat → List Char → Option (List Json × List Char)
  | 0, _ => none
  | Nat.succ f, s =>
    match parseJsonValue f s with
    | some (v, rest) =>
      match rest.dropWhile Aethyl.isWsChar with
      | ',' :: rest' =>
        match parseJsonElements f rest' with
        | some (xs, rest'') => some (v :: xs, rest'')
        | none => none
      | ']' :: rest' => some ([v], rest')
      | _ => none
    | none => none

end

/-- Model of `JSON.parse`: parse the whole string (trailing whitespace
allowed), failing on any malformed input. -/
def jsonParse (s : String) : Option Json :=
  match parseJsonValue (s.data.length + 1) s.data with
  | some (j, rest) => if (rest.dropWhile Aethyl.isWsChar).isEmpty then some j else none
  | none => none

/-- Optional-chaining field access (`obj?.k`): `undefined` on non-objects
or a missing key. -/
def Json.getField : Json → String → Option Json
  | .obj fs, k => fs.lookup k
  | _, _ => none

/-- Optional-chaining index access (`arr?.[i]`). -/
def Json.getIdx : Json → Nat → Option Json
  | .arr xs, i => xs.get? i
  | _, _ => none

/-- A JSON value read as a string (`undefined` otherwise). -/
def Json.asStr : Json → Option String
  | .str s => some s
  | _ => none

/-- Model of a JavaScript strict equality test `x === "lit"` on a
possibly-undefined JSON value. -/
def jsIsStr : Option Json → String → Bool
  | some (.str s), t => s = t
  | _, _ => false

/-- Model of a JavaScript truthiness test on a possibly-undefined JSON
value expected to be a string (`""`, `undefined` and non-strings are
falsy for the adapters' `if (delta)`-style guards). -/
def jsTruthyStr : Option Json → Option String
  | some (.str s) => if s ≠ "" then some s else none
  | _ => none

namespace Aethyl

/-! ### Core data model -/

/-- `Source` (`src/types`-equivalent): a grounding citation. -/
structure Source where
  title : String
  url : String
deriving DecidableEq, Repr

/-- `Attachment`: the fields the adapter layer reads. -/
structure Attachment where
  name : String
  type : String
  data : String
  isText : Bool
deriving DecidableEq, Repr

/-- `SearchResponse` (`images?` is optional, hence `Option`). -/
structure SearchResponse where
  text : String
  sources : List Source
  images : Option (List String)
deriving DecidableEq, Repr

/-- The normalized provider key (`part_000` line 147 / return type of
`normalizeProvider` in `part_006` line 63). -/
inductive ProviderId where
  | google | xai | openai | moonshot | anthropic
deriving DecidableEq, Repr

/-- The fixed sentinel failure text substituted for an empty stream
(`part_006` lines 326, 399, 457; `src/services/aiService.ts` line 384). -/
def sentinelText : String := "Data retrieval failed. The void returned nothing."

/-! ### Provider normalization (`part_006` lines 63–74; `part_000`
lines 149–160, which orders the anthropic test before the moonshot test
but agrees on every outcome relevant here). -/

/-- `normalizeProvider` from `part_006` lines 63–74: lowercase the label,
test the five provider families by substring, default to `"google"`.
Total by construction (a Lean function). -/
def normalizeProvider (providerLabel : String) : ProviderId :=
  let p := jsToLower providerLabel
  if jsIncludes p "google" || jsIncludes p "gemini" then .google
  else if jsIncludes p "xai" || jsIncludes p "grok" then .xai
  else if jsIncludes p "openai" || jsIncludes p "gpt" then .openai
  else if jsIncludes p "moonshot" || jsIncludes p "kimi" then .moonshot
  else if jsIncludes p "anthropic" || jsIncludes p "claude" then .anthropic
  else .google

/-! ### Credential resolution (`part_006` lines 49–57 and 82–120) -/

/-- `UserProfile`, restricted to the field the resolver reads:
`userProfile.apiKeys?.[providerKey]`. -/
structure UserProfile where
  apiKeys : ProviderId → Option String

/-- An environment: the raw `import.meta.env` lookup. -/
def EnvMap := String → Option String

/-- `getEnvKey` (`part_006` lines 49–57): the variable's value when it is
a string with non-empty trim, `undefined` otherwise. -/
def getEnvKey (name : String) (env : EnvMap) : Option String :=
  match env name with
  | some v => if jsTrim v ≠ "" then some v else none
  | none => none

/-- The per-provider environment fallback chains of `getApiKeyForProvider`
(`part_006` lines 93–117); `||` on the chain is `Option.orElse` since
`getEnvKey` never yields an empty string. -/
def envKeyFor (pk : ProviderId) (env : EnvMap) : Option String :=
  match pk with
  | .google =>
    (getEnvKey "VITE_GOOGLE_API_KEY" env).orElse fun _ =>
      (getEnvKey "VITE_GEMINI_API_KEY" env).orElse fun _ =>
        getEnvKey "VITE_API_KEY" env
  | .xai =>
    (getEnvKey "VITE_XAI_API_KEY" env).orElse fun _ =>
      getEnvKey "VITE_GROK_API_KEY" env
  | .openai => getEnvKey "VITE_OPENAI_API_KEY" env
  | .moonshot => getEnvKey "VITE_MOONSHOT_API_KEY" env
  | .anthropic => getEnvKey "VITE_ANTHROPIC_API_KEY" env

/-- `getApiKeyForProvider` (`part_006` lines 82–120): the per-user stored
key (trimmed) when non-empty, else the provider's environment chain. -/
def getApiKeyForProvider (providerLabel : String) (userProfile : UserProfile)
    (env : EnvMap) : ProviderId × Option String :=
  let providerKey := normalizeProvider providerLabel
  match userProfile.apiKeys providerKey with
  | some profileKey =>
    if jsTrim profileKey ≠ "" then (providerKey, some (jsTrim profileKey))
    else (providerKey, envKeyFor providerKey env)
  | none => (providerKey, envKeyFor providerKey env)

/-! ### History conversion and query assembly (`part_006`) -/

/-- One part of a Gemini-shaped history turn (`{ text: string }`). -/
structure TurnPart where
  text : String
deriving DecidableEq, Repr

/-- A history turn as the caller passes it
(`{ role: string; parts: { text: string }[] }`). -/
structure HistoryTurn where
  role : String
  parts : List TurnPart
deriving DecidableEq, Repr

/-- An OpenAI-style chat message (`{ role, content }`). -/
structure ChatMsg where
  role : String
  content : String
deriving DecidableEq, Repr

/-- `mapHistoryToOpenAIStyle` (`part_006` lines 150–157): `model` becomes
`assistant`, anything else `user`; parts are joined; turns whose joined
content trims to empty are filtered out. -/
def mapHistoryToOpenAIStyle (history : List HistoryTurn) : List ChatMsg :=
  (history.map (fun h =>
    { role := if h.role = "model" then "assistant" else "user",
      content := String.join (h.parts.map TurnPart.text) })).filter
    (fun m => (jsTrim m.content).data.length > 0)

/-- One entry of `contextParts` (`part_006` lines 216–223): a delimited
block for a text attachment, a placeholder line for a binary one. -/
def contextPartOf (att : Attachment) : String :=
  if att.isText then
    "\n[FILE: " ++ att.name ++ "]\n" ++ att.data ++ "\n[END FILE]\n"
  else
    "\n[BINARY FILE: " ++ att.name ++ " (" ++ att.type ++
      ") - Content Omitted in Text Stream]\n"

/-- `finalQuery` (`part_006` line 224):
`` `${contextParts.join("\n")}\n\n${query}`.trim() ``. -/
def finalQueryOf (attachments : List Attachment) (query : String) : String :=
  jsTrim (String.intercalate "\n" (attachments.map contextPartOf) ++ "\n\n" ++ query)

/-- The OpenAI-compatible outgoing message list (`part_006` lines 410–414):
system instruction, then the converted history, then the in-flight user
turn carrying `finalQuery || query`. -/
def openAIMessages (systemInstruction : String) (history : List HistoryTurn)
    (finalQuery query : String) : List ChatMsg :=
  { role := "system", content := systemInstruction } ::
    (mapHistoryToOpenAIStyle history ++
      [{ role := "user", content := if finalQuery ≠ "" then finalQuery else query }])

/-- The Anthropic outgoing message list (`part_006` lines 341–342):
converted history with the in-flight user turn pushed last. -/
def anthropicMessages (history : List HistoryTurn) (finalQuery query : String) :
    List ChatMsg :=
  mapHistoryToOpenAIStyle history ++
    [{ role := "user", content := if finalQuery ≠ "" then finalQuery else query }]

/-! ### The caller's history construction -/

/-- The fields of an `App` chat `Message` that `historyContext` reads. -/
structure AppMsg where
  role : String
  content : String
deriving DecidableEq, Repr

/-- The `historyContext` mapping shared by both caller generations
(`part_001` lines 209–212): each message becomes a Gemini-shaped turn. -/
def historyContextOf (msgs : List AppMsg) : List HistoryTurn :=
  msgs.map (fun m =>
    { role := if m.role = "user" then "user" else "model",
      parts := [{ text := m.content }] })

/-- `handleSearch` in `part_001` (lines 175–216): the in-flight user
message is first appended (`initialMessages = [...messages, userMsg]`,
line 184) and the WHOLE of `initialMessages` — including the in-flight
turn — is mapped into the history passed to `performDeepSearch`. -/
def handleSearchHistoryPart1 (messages : List AppMsg) (userMsg : AppMsg) :
    List HistoryTurn :=
  historyContextOf (messages ++ [userMsg])

/-- `handleSearch` in `src/App.tsx` (lines 145–160): same construction,
but the in-flight turn is removed with `historyContext.slice(0, -1)`
("Exclude current message from history as it's passed as query"). -/
def handleSearchHistoryAppTsx (messages : List AppMsg) (userMsg : AppMsg) :
    List HistoryTurn :=
  (historyContextOf (messages ++ [userMsg])).dropLast

/-! ### OpenAI-compatible streaming branch (`part_006` lines 436–455;
`src/services/aiService.ts` lines 342–381 is the same loop) -/

/-- Aggregation state of the OpenAI-compatible branch: the cumulative
text, the trace of `onChunk` invocations (each argument in call order),
and whether the `[DONE]` sentinel broke the loop. -/
structure OpenAIState where
  fullText : String
  calls : List String
  done : Bool
deriving DecidableEq, Repr

/-- `parsed.choices?.[0]?.delta?.content` on a parsed `data:` payload. -/
def openAIDelta (j : Json) : Option Json :=
  (j.getField "choices").bind fun cs =>
    (cs.getIdx 0).bind fun c0 =>
      (c0.getField "delta").bind fun d =>
        d.getField "content"

/-- One SSE line of the OpenAI-compatible loop (`part_006` lines 438–455):
skip non-`data:` lines, break on `[DONE]`, skip empty payloads, parse the
JSON, and on a truthy delta extend the text and invoke `onChunk`. -/
def openAIStep (st : OpenAIState) (line : String) : OpenAIState :=
  if st.done then st
  else if ¬ jsStartsWith line "data:" then st
  else
    let dataStr := jsTrim (jsSlice line 5)
    if dataStr = "[DONE]" then { st with done := true }
    else if dataStr = "" then st
    else
      match jsonParse dataStr with
      | none => st
      | some parsed =>
        match jsTruthyStr (openAIDelta parsed) with
        | some delta =>
          let t := st.fullText ++ delta
          { st with fullText := t, calls := st.calls ++ [t] }
        | none => st

/-- The whole OpenAI-compatible read loop over the decoded SSE lines. -/
def openAIRun (lines : List String) : OpenAIState :=
  lines.foldl openAIStep { fullText := "", calls := [], done := false }

/-- The OpenAI-compatible branch's returned response (`part_006` lines
457–458): the sentinel replaces an empty cumulative text. -/
def openAIFinal (lines : List String) : SearchResponse :=
  let st := openAIRun lines
  { text := if st.fullText = "" then sentinelText else st.fullText,
    sources := [], images := some [] }

/-! ### Anthropic (Messages-style) streaming branch -/

/-- Aggregation state of the `part_006` Anthropic loop (lines 369–397):
cumulative text, `onChunk` trace, the `currentEvent` register set by
`event:` lines, and whether `message_stop` broke the loop. -/
structure AnthState where
  fullText : String
  calls : List String
  currentEvent : String
  done : Bool
deriving DecidableEq, Repr

/-- `evt.delta?.text` on a parsed Anthropic `data:` payload. -/
def anthDeltaText (j : Json) : Option Json :=
  (j.getField "delta").bind fun d => d.getField "text"

/-- One SSE line of the `part_006` Anthropic loop (lines 372–397):
empty lines are skipped; `event:` lines set `currentEvent`; `data:`
payloads are parsed, text is appended only under the
`content_block_delta` event, and a `message_stop` event breaks the loop. -/
def anthStepPart6 (st : AnthState) (line : String) : AnthState :=
  if st.done then st
  else if line = "" then st
  else if jsStartsWith line "event:" then
    { st with currentEvent := jsTrim (jsSlice line 6) }
  else if ¬ jsStartsWith line "data:" then st
  else
    let dataStr := jsTrim (jsSlice line 5)
    if dataStr = "" then st
    else
      match jsonParse dataStr with
      | none => st
      | some evt =>
        let st' :=
          if st.currentEvent = "content_block_delta" then
            match jsTruthyStr (anthDeltaText evt) with
            | some d =>
              let t := st.fullText ++ d
              { st with fullText := t, calls := st.calls ++ [t] }
            | none => st
          else st
        if st'.currentEvent = "message_stop" then { st' with done := true } else st'

/-- The whole `part_006` Anthropic read loop. -/
def anthRunPart6 (lines : List String) : AnthState :=
  lines.foldl anthStepPart6 { fullText := "", calls := [], currentEvent := "", done := false }

/-- The `part_006` Anthropic branch's returned response (lines 399–400):
the sentinel replaces an empty cumulative text. -/
def anthFinalPart6 (lines : List String) : SearchResponse :=
  let st := anthRunPart6 lines
  { text := if st.fullText = "" then sentinelText else st.fullText,
    sources := [], images := some [] }

/-- Aggregation state of the `part_007` Anthropic loop. -/
structure Anth7State where
  fullText : String
  calls : List String
deriving DecidableEq, Repr

/-- One SSE line of the `part_007` Anthropic loop (lines 215–227): only
`data:` lines are read, empty and `[DONE]` payloads are skipped, and text
is appended when the payload's own `type` field equals
`content_block_delta`; no event terminates the loop. -/
def anthStepPart7 (st : Anth7State) (line : String) : Anth7State :=
  if ¬ jsStartsWith line "data:" then st
  else
    let dataStr := jsTrim (jsSlice line 5)
    if dataStr = "" || dataStr = "[DONE]" then st
    else
      match jsonParse dataStr with
      | none => st
      | some evt =>
        if jsIsStr (evt.getField "type") "content_block_delta" then
          match jsTruthyStr (anthDeltaText evt) with
          | some d =>
            let t := st.fullText ++ d
            { fullText := t, calls := st.calls ++ [t] }
          | none => st
        else st

/-- The whole `part_007` Anthropic read loop. -/
def anthRunPart7 (lines : List String) : Anth7State :=
  lines.foldl anthStepPart7 { fullText := "", calls := [] }

/-- The `part_007` Anthropic branch's returned response (line 228):
`{ text: fullText, sources: [] }` — no sentinel substitution, no images
field. -/
def anthFinalPart7 (lines : List String) : SearchResponse :=
  let st := anthRunPart7 lines
  { text := st.fullText, sources := [], images := none }

/-! ### Gemini (native-SDK) branch -/

/-- `gc.web` of a grounding chunk (both `uri` and `title` may be absent). -/
structure GroundingWeb where
  uri : Option String
  title : Option String
deriving DecidableEq, Repr

/-- A grounding chunk (`candidates[0].groundingMetadata.groundingChunks[i]`). -/
structure GroundingChunk where
  web : Option GroundingWeb
deriving DecidableEq, Repr

/-- `part.inlineData` of a response part. -/
structure InlineData where
  mimeType : Option String
  data : String
deriving DecidableEq, Repr

/-- A response content part (`candidates[0].content.parts[i]`); the
Gemini aggregation only reads `inlineData`. -/
structure GemRespPart where
  inlineData : Option InlineData
deriving DecidableEq, Repr

/-- One streamed Gemini chunk, restricted to the fields the aggregation
reads: `c.text`, `c.candidates?.[0]?.content?.parts` and
`c.candidates?.[0]?.groundingMetadata?.groundingChunks` (absent
candidates are modelled by empty lists). -/
structure GemChunk where
  text : Option String
  parts : List GemRespPart
  groundingChunks : List GroundingChunk
deriving DecidableEq, Repr

/-- Aggregation state of the `part_006` Gemini loop (lines 289–323). -/
structure Gem6State where
  fullText : String
  calls : List String
  images : List String
  sources : List Source
  seen : List String
deriving DecidableEq, Repr

/-- The truthiness guard `gc.web?.uri && gc.web?.title` returning the
pair when both are truthy. -/
def webUriTitle (gc : GroundingChunk) : Option (String × String) :=
  match gc.web with
  | some w =>
    match w.uri, w.title with
    | some u, some t => if u ≠ "" && t ≠ "" then some (u, t) else none
    | _, _ => none
  | none => none

/-- Grounding-source collection with URL deduplication (`part_006` lines
313–323): a `Set` of seen URIs gates insertion, so only the first
occurrence of a URL contributes, with its title. -/
def collectGroundingPart6 (st : List Source × List String)
    (gcs : List GroundingChunk) : List Source × List String :=
  gcs.foldl
    (fun st gc =>
      match webUriTitle gc with
      | some (u, t) =>
        if st.2.contains u then st else (st.1 ++ [{ title := t, url := u }], st.2 ++ [u])
      | none => st)
    st

/-- Image collection (`part_006` lines 303–311): every part with truthy
`inlineData?.data` yields a data URI, the MIME type defaulting to
`image/png` when falsy. -/
def collectImages (parts : List GemRespPart) : List String :=
  (parts.filterMap fun part =>
    match part.inlineData with
    | some d =>
      if d.data ≠ "" then
        let mt := match d.mimeType with
                  | some m => if m ≠ "" then m else "image/png"
                  | none => "image/png"
        some ("data:" ++ mt ++ ";base64," ++ d.data)
      else none
    | none => none)

/-- One streamed chunk of the `part_006` Gemini loop (lines 294–323):
text accumulation with `onChunk`, then image collection, then grounding
collection with deduplication. -/
def gem6Step (st : Gem6State) (c : GemChunk) : Gem6State :=
  let st1 :=
    match c.text with
    | some t =>
      if t ≠ "" then
        let ft := st.fullText ++ t
        { st with fullText := ft, calls := st.calls ++ [ft] }
      else st
    | none => st
  let st2 := { st1 with images := st1.images ++ collectImages c.parts }
  let (srcs, seen) := collectGroundingPart6 (st2.sources, st2.seen) c.groundingChunks
  { st2 with sources := srcs, seen := seen }

/-- The `part_006` Gemini aggregation over a whole chunk stream, with the
empty-stream sentinel (lines 325–329): when no text and no images were
produced, the sentinel replaces the empty text. -/
def geminiRunPart6 (chunks : List GemChunk) : SearchResponse :=
  let st := chunks.foldl gem6Step
    { fullText := "", calls := [], images := [], sources := [], seen := [] }
  let ft := if st.fullText = "" && st.images.isEmpty then sentinelText else st.fullText
  { text := ft, sources := st.sources, images := some st.images }

/-- Aggregation state of the `part_007` Gemini loop (lines 164–182). -/
structure Gem7State where
  fullText : String
  calls : List String
  sources : List Source
deriving DecidableEq, Repr

/-- One streamed chunk of the `part_007` Gemini loop: text accumulation,
then grounding collection WITHOUT deduplication — every chunk whose
`web.uri` and `web.title` are truthy is pushed. -/
def gem7Step (st : Gem7State) (c : GemChunk) : Gem7State :=
  let st1 :=
    match c.text with
    | some t =>
      if t ≠ "" then
        let ft := st.fullText ++ t
        { st with fullText := ft, calls := st.calls ++ [ft] }
      else st
    | none => st
  { st1 with sources := st1.sources ++
      (c.groundingChunks.filterMap fun gc =>
        match webUriTitle gc with
        | some (u, t) => some { title := t, url := u }
        | none => none) }

/-- The `part_007` Gemini aggregation over a whole chunk stream
(line 183): `{ text: fullText, sources, images: [] }` — no sentinel
substitution for an empty stream. -/
def geminiRunPart7 (chunks : List GemChunk) : SearchResponse :=
  let st := chunks.foldl gem7Step { fullText := "", calls := [], sources := [] }
  { text := st.fullText, sources := st.sources, images := some [] }

/-! ### Gemini request assembly (`part_006` lines 234–266) -/

/-- A Gemini request content part: either a text part or an inline-data
payload. -/
inductive GemPart where
  | textPart (text : String) : GemPart
  | inlineData (mimeType data : String) : GemPart
deriving DecidableEq, Repr

/-- `GEMINI_INLINE_SUPPORTED_TYPES` (`part_006` lines 22–44). -/
def GEMINI_INLINE_SUPPORTED_TYPES : List String :=
  ["application/pdf", "image/png", "image/jpeg", "image/webp", "image/heic",
   "image/heif", "audio/wav", "audio/mp3", "audio/aiff", "audio/aac",
   "audio/ogg", "audio/flac", "video/mp4", "video/mpeg", "video/mov",
   "video/avi", "video/x-flv", "video/mpg", "video/webm", "video/wmv",
   "video/3gpp"]

/-- The part contributed for one attachment by the `part_006` Gemini
branch (lines 242–263): text attachments become delimited text blocks;
binaries on the allow-list become inline data; every other binary becomes
the `[NOTE] Attachment skipped` text placeholder naming the file and its
MIME type (each loop iteration pushes exactly one part). -/
def attachmentToGemPart (att : Attachment) : GemPart :=
  if att.isText then
    .textPart ("\n\n--- FILE ATTACHMENT: " ++ att.name ++ " ---\n" ++ att.data ++
      "\n--- END ATTACHMENT ---\n\n")
  else if GEMINI_INLINE_SUPPORTED_TYPES.contains att.type then
    .inlineData att.type att.data
  else
    .textPart ("\n\n[NOTE] Attachment skipped (unsupported type): " ++ att.name ++
      " (" ++ att.type ++ ")\n\n")

/-- `currentParts` of the `part_006` Gemini branch (lines 240–265): one
part per attachment, then the final query when non-empty. -/
def geminiCurrentParts (attachments : List Attachment) (finalQuery : String) :
    List GemPart :=
  attachments.map attachmentToGemPart ++
    (if finalQuery ≠ "" then [.textPart finalQuery] else [])

/-- A Gemini request content entry (`{ role, parts }`). -/
structure GemContent where
  role : String
  parts : List GemPart
deriving DecidableEq, Repr

/-- The Gemini `contents` array (`part_006` lines 234–266): the history
mapped one-to-one, then the in-flight user turn carrying `currentParts`. -/
def geminiContents (history : List HistoryTurn) (attachments : List Attachment)
    (finalQuery : String) : List GemContent :=
  history.map (fun h => { role := h.role, parts := h.parts.map fun p => .textPart p.text }) ++
    [{ role := "user", parts := geminiCurrentParts attachments finalQuery }]

/-! ### Router dispatch (`part_006` lines 197–461) -/

/-- The adapter family a request is routed to. -/
inductive AdapterFamily where
  | nativeSDK | messages | openAICompat
deriving DecidableEq, Repr

/-- The provider branch structure of `performDeepSearch` (`part_006`
lines 229, 338, 407, 461): google goes to the native-SDK branch,
anthropic to the Messages branch, the three OpenAI-compatible providers
to the shared branch; any other value would reach the final
`Provider not implemented` throw (dead for normalized keys). -/
def routeAdapter (providerKey : ProviderId) : Except String AdapterFamily :=
  if providerKey = .google then .ok .nativeSDK
  else if providerKey = .anthropic then .ok .messages
  else if providerKey = .xai || providerKey = .openai || providerKey = .moonshot then
    .ok .openAICompat
  else .error "Provider not implemented."

/-- The credential gate of `performDeepSearch` (`part_006` lines
207–211): resolve the key; a missing key throws the credential-missing
error (modelled by `Except.error`) before any request is assembled or
dispatched; otherwise the request proceeds to the adapter for the
normalized provider. -/
def dispatchDeepSearch (providerLabel : String) (userProfile : UserProfile)
    (env : EnvMap) : Except String (ProviderId × AdapterFamily) :=
  let (providerKey, apiKey) := getApiKeyForProvider providerLabel userProfile env
  match apiKey with
  | none => .error ("Missing API Key for " ++ providerLabel ++
      ". Please add it in Settings > API Keys.")
  | some _ =>
    match routeAdapter providerKey with
    | .ok fam => .ok (providerKey, fam)
    | .error e => .error e

end Aethyl

/-- C2: for every partition of the input `"a\nb\nc"` into two byte chunks
(the boundary index `i` ranging over all positions, including mid-line
splits), the Stream Decoder `sseLines` yields exactly the lines
`["a", "b", "c"]` in order, the trailing partial line `"c"` being flushed
at stream end. -/
theorem sseLines_two_chunk_partition (i : Nat) (h : i ≤ 5) :
    Aethyl.sseLines [⟨"a\nb\nc".data.take i⟩, ⟨"a\nb\nc".data.drop i⟩] =
      ["a", "b", "c"] := by
  interval_cases i <;> decide

/-- C2 witness: the boundary at index 3 (splitting the stream into
`"a\nb"` and `"\nc"`) yields `["a", "b", "c"]`. -/
theorem sseLines_two_chunk_partition_witness :
    Aethyl.sseLines [⟨"a\nb\nc".data.take 3⟩, ⟨"a\nb\nc".data.drop 3⟩] =
      ["a", "b", "c"] :=
  sseLines_two_chunk_partition 3 (by decide)

open Aethyl

/-- C1: evaluated at the failing input (no prior messages, new query
`"q"`, no attachments), the `part_001` caller (`handleSearch`, lines
184–212) passes a history that already CONTAINS the in-flight turn, so
the `part_006` OpenAI-compatible adapter's outgoing message list carries
the new user turn twice — once inside the history section and once
appended last — contradicting the claim; the `src/App.tsx` caller
(`historyContext.slice(0, -1)`) passes the empty history instead. -/
theorem part1_history_includes_inflight_turn :
    handleSearchHistoryPart1 [] { role := "user", content := "q" } =
      [{ role := "user", parts := [{ text := "q" }] }] ∧
    openAIMessages "SYS" (handleSearchHistoryPart1 [] { role := "user", content := "q" })
        (finalQueryOf [] "q") "q" =
      [{ role := "system", content := "SYS" },
       { role := "user", content := "q" },
       { role := "user", content := "q" }] ∧
    handleSearchHistoryAppTsx [] { role := "user", content := "q" } = [] := by
  decide

/-- The two-delta Gemini stream of claim C3: the same URL observed twice,
first with title `"A"`, then with title `"B"`. -/
def sameUrlStream : List GemChunk :=
  [{ text := none, parts := [],
     groundingChunks := [{ web := some { uri := some "https://x.com", title := some "A" } }] },
   { text := none, parts := [],
     groundingChunks := [{ web := some { uri := some "https://x.com", title := some "B" } }] }]

/-- C3: on a stream carrying the same URL twice with titles `"A"` then
`"B"`, the `part_006` aggregation returns exactly one Source with the
first title, as the claim states — but the `part_007` aggregation
(lines 174–181, cited by the claim) has no deduplication and returns two
Sources with the same URL, contradicting the claim. -/
theorem gemini_source_dedup_divergence :
    (geminiRunPart7 sameUrlStream).sources =
      [{ title := "A", url := "https://x.com" }, { title := "B", url := "https://x.com" }] ∧
    (geminiRunPart6 sameUrlStream).sources =
      [{ title := "A", url := "https://x.com" }] := by
  decide

/-- C4: on a stream that completes with zero text deltas and zero images,
the `part_006` Gemini branch, the `part_006` Anthropic branch and the
OpenAI-compatible branch all return the fixed sentinel failure text, as
the claim states — but the `part_007` variant (lines 164–183, cited by
the claim) returns the empty string with no sentinel substitution. -/
theorem empty_stream_sentinel_divergence :
    (geminiRunPart7 []).text = "" ∧
    (geminiRunPart7 []).text ≠ sentinelText ∧
    (geminiRunPart6 []).text = sentinelText ∧
    (anthFinalPart6 []).text = sentinelText ∧
    (openAIFinal ["data: [DONE]"]).text = sentinelText := by
  decide

/-- The Messages-style SSE line sequence of claim C5, extended with one
frame after `message_stop` to observe whether processing terminates
there. -/
def anthScenarioLines : List String :=
  ["event: content_block_delta",
   "data: \x7b\"type\":\"content_block_delta\",\"delta\":\x7b\"type\":\"text_delta\",\"text\":\"Hi\"\x7d\x7d",
   "event: message_stop",
   "data: \x7b\"type\":\"message_stop\"\x7d",
   "event: content_block_delta",
   "data: \x7b\"type\":\"content_block_delta\",\"delta\":\x7b\"type\":\"text_delta\",\"text\":\" MORE\"\x7d\x7d"]

/-- C5: on the claim's scenario (a `content_block_delta` frame carrying
`delta.text = "Hi"` followed by `message_stop`), the `part_006` Messages
adapter yields exactly `"Hi"`, invokes `onChunk` once, and terminates at
`message_stop`, ignoring the appended later frame — but the `part_007`
variant (lines 214–228, cited by the claim) never terminates at
`message_stop` and keeps consuming frames, returning `"Hi MORE"`,
contradicting the claim. -/
theorem anthropic_message_stop_divergence :
    (anthFinalPart6 anthScenarioLines).text = "Hi" ∧
    (anthRunPart6 anthScenarioLines).calls = ["Hi"] ∧
    (anthRunPart6 anthScenarioLines).done = true ∧
    (anthFinalPart7 anthScenarioLines).text = "Hi MORE" := by
  decide

/-- The OpenAI-compatible SSE line sequence of claim C6. -/
def openAIScenarioLines : List String :=
  ["data: \x7b\"choices\":[\x7b\"delta\":\x7b\"content\":\"Hel\"\x7d\x7d]\x7d",
   "data: \x7b\"choices\":[\x7b\"delta\":\x7b\"content\":\"lo\"\x7d\x7d]\x7d",
   "data: [DONE]"]

/-- C6: on the SSE lines
`data: {"choices":[{"delta":{"content":"Hel"}}]}`,
`data: {"choices":[{"delta":{"content":"lo"}}]}`, `data: [DONE]`, the
OpenAI-compatible adapter invokes `onChunk` exactly twice, with the
cumulative texts `"Hel"` then `"Hello"` in order, and the returned
response's text equals `"Hello"`. -/
theorem openai_scenario_progress_and_text :
    (openAIRun openAIScenarioLines).calls = ["Hel", "Hello"] ∧
    (openAIFinal openAIScenarioLines).text = "Hello" := by
  decide

/-- C7: for every provider label, whenever the per-user stored key for
the normalized provider is present with non-empty trim, the credential
resolution returns that (trimmed) stored key, whatever the environment
holds — the environment chain is only a fallback. -/
theorem getApiKeyForProvider_prefers_stored_key (label : String)
    (profile : UserProfile) (env : EnvMap) (k : String)
    (h1 : profile.apiKeys (normalizeProvider label) = some k)
    (h2 : jsTrim k ≠ "") :
    (getApiKeyForProvider label profile env).2 = some (jsTrim k) := by
  simp [getApiKeyForProvider, h1, h2]

/-- The stored-key profile of the C7 witness: a per-user OpenAI key. -/
def c7Profile : UserProfile :=
  ⟨fun pk => if pk = .openai then some "sk-user" else none⟩

/-- The environment of the C7 witness: an OpenAI default key is also
present, and must lose to the stored key. -/
def c7Env : EnvMap :=
  fun n => if n = "VITE_OPENAI_API_KEY" then some "sk-env" else none

/-- C7 witness: with both the stored key `"sk-user"` and the environment
key `"sk-env"` present for OpenAI, resolution returns the stored key. -/
theorem getApiKeyForProvider_prefers_stored_key_witness :
    getEnvKey "VITE_OPENAI_API_KEY" c7Env = some "sk-env" ∧
    (getApiKeyForProvider "OpenAI" c7Profile c7Env).2 = some (jsTrim "sk-user") :=
  ⟨by decide,
   getApiKeyForProvider_prefers_stored_key "OpenAI" c7Profile c7Env "sk-user"
     (by decide) (by decide)⟩

/-- C8: when the profile stores no key for the normalized provider and
the environment defines no variable at all, `performDeepSearch`'s
credential gate rejects with the credential-missing error — modelled by
`Except.error`, i.e. a thrown error, produced before any adapter branch
is reached; the result is never a success value. -/
theorem dispatchDeepSearch_missing_key_error (label : String)
    (profile : UserProfile) (env : EnvMap)
    (h1 : profile.apiKeys (normalizeProvider label) = none)
    (h2 : ∀ n, env n = none) :
    dispatchDeepSearch label profile env =
      .error ("Missing API Key for " ++ label ++ ". Please add it in Settings > API Keys.") := by
  have he : ∀ n, getEnvKey n env = none := fun n => by simp [getEnvKey, h2 n]
  have hk : envKeyFor (normalizeProvider label) env = none := by
    cases h : normalizeProvider label <;> simp [envKeyFor, he]
  simp [dispatchDeepSearch, getApiKeyForProvider, h1, hk]

/-- The empty profile of the C8 witness. -/
def c8Profile : UserProfile := ⟨fun _ => none⟩

/-- The empty environment of the C8 witness. -/
def c8Env : EnvMap := fun _ => none

/-- C8 witness: with no stored key and no environment key, dispatch for
the `Anthropic` label rejects with the credential-missing error. -/
theorem dispatchDeepSearch_missing_key_error_witness :
    dispatchDeepSearch "Anthropic" c8Profile c8Env =
      .error ("Missing API Key for " ++ "Anthropic" ++
        ". Please add it in Settings > API Keys.") :=
  dispatchDeepSearch_missing_key_error "Anthropic" c8Profile c8Env rfl (fun _ => rfl)

/-- C9: every attachment that is binary and whose MIME type is outside
the Gemini inline allow-list still contributes a text placeholder part
naming the file and its MIME type to the in-flight turn's parts, and
that turn is part of the assembled `contents` of the request — the
attachment is never dropped silently. -/
theorem gemini_unsupported_binary_placeholder (atts : List Attachment)
    (q : String) (att : Attachment) (hist : List HistoryTurn)
    (hmem : att ∈ atts) (hbin : att.isText = false)
    (hunsup : GEMINI_INLINE_SUPPORTED_TYPES.contains att.type = false) :
    GemPart.textPart ("\n\n[NOTE] Attachment skipped (unsupported type): " ++
        att.name ++ " (" ++ att.type ++ ")\n\n") ∈ geminiCurrentParts atts q ∧
    ({ role := "user", parts := geminiCurrentParts atts q } : GemContent) ∈
      geminiContents hist atts q := by
  constructor
  · have hunsup' : att.type ∉ GEMINI_INLINE_SUPPORTED_TYPES := by
      simpa using hunsup
    have hpart : attachmentToGemPart att =
        GemPart.textPart ("\n\n[NOTE] Attachment skipped (unsupported type): " ++
          att.name ++ " (" ++ att.type ++ ")\n\n") := by
      simp [attachmentToGemPart, hbin, hunsup']
    unfold geminiCurrentParts
    exact List.mem_append_left _ (hpart ▸ List.mem_map_of_mem _ hmem)
  · unfold geminiContents
    exact List.mem_append_right _ (List.mem_singleton.mpr rfl)

/-- The unsupported binary attachment of the C9 witness. -/
def c9Att : Attachment :=
  { name := "x.bin", type := "application/zip", data := "AAAA", isText := false }

/-- C9 witness: a zip attachment (not on the allow-list) yields its named
placeholder part inside the assembled request. -/
theorem gemini_unsupported_binary_placeholder_witness :
    GemPart.textPart ("\n\n[NOTE] Attachment skipped (unsupported type): " ++
        c9Att.name ++ " (" ++ c9Att.type ++ ")\n\n") ∈ geminiCurrentParts [c9Att] "hi" ∧
    ({ role := "user", parts := geminiCurrentParts [c9Att] "hi" } : GemContent) ∈
      geminiContents [] [c9Att] "hi" :=
  gemini_unsupported_binary_placeholder [c9Att] "hi" c9Att []
    (by decide) (by decide) (by decide)

/-- C10: `normalizeProvider` is a total function, and for every label
whose lowercase form contains none of the ten family substrings
(google/gemini, xai/grok, openai/gpt, moonshot/kimi, anthropic/claude)
it returns `google`; the router then sends such a label to the
native-SDK (Gemini) adapter, never to the `Provider not implemented`
throw. -/
theorem normalizeProvider_unmatched_defaults_google (label : String)
    (h1 : jsIncludes (jsToLower label) "google" = false)
    (h2 : jsIncludes (jsToLower label) "gemini" = false)
    (h3 : jsIncludes (jsToLower label) "xai" = false)
    (h4 : jsIncludes (jsToLower label) "grok" = false)
    (h5 : jsIncludes (jsToLower label) "openai" = false)
    (h6 : jsIncludes (jsToLower label) "gpt" = false)
    (h7 : jsIncludes (jsToLower label) "moonshot" = false)
    (h8 : jsIncludes (jsToLower label) "kimi" = false)
    (h9 : jsIncludes (jsToLower label) "anthropic" = false)
    (h10 : jsIncludes (jsToLower label) "claude" = false) :
    normalizeProvider label = .google ∧
    routeAdapter (normalizeProvider label) = .ok .nativeSDK := by
  have hg : normalizeProvider label = .google := by
    simp [normalizeProvider, h1, h2, h3, h4, h5, h6, h7, h8, h9, h10]
  exact ⟨hg, by rw [hg]; rfl⟩

/-- C10 witness: the unrecognized label `"mystery-llm"` normalizes to
`google` and is routed to the native-SDK adapter. -/
theorem normalizeProvider_unmatched_defaults_google_witness :
    normalizeProvider "mystery-llm" = .google ∧
    routeAdapter (normalizeProvider "mystery-llm") = .ok .nativeSDK :=
  normalizeProvider_unmatched_defaults_google "mystery-llm"
    (by decide) (by decide) (by decide) (by decide) (by decide)
    (by decide) (by decide) (by decide) (by decide) (by decide)
